import Mathlib

/-!
Verification of the googley_bot event-notification pipeline.

The Python sources under `src/` are shallowly embedded: each Python function
that a claim touches becomes an executable Lean definition mirroring the
source line by line; asynchronous database sessions become explicit state
passing over lists of rows; exceptions become `Except`/`Option` results.
-/

/-- A parsed JSON value, as produced by Python's `json.loads`.
Numbers are modelled as integers (the payloads under verification carry
only integral numbers). -/
inductive Json where
  | null
  | bool (b : Bool)
  | num (n : Int)
  | str (s : String)
  | arr (elems : List Json)
  | obj (fields : List (String × Json))

namespace Json

/-- Python `j == s` for a string literal `s`: true exactly when the parsed
value is that string. -/
def eqStr (j : Json) (s : String) : Bool :=
  match j with
  | .str t => t = s
  | _ => false

/-- Python `d[k]` on a parsed-JSON value: returns the value when `j` is an
object containing key `k`; `none` models the `KeyError`/`TypeError` raised
otherwise. -/
def index (j : Json) (k : String) : Option Json :=
  match j with
  | .obj fields => fields.lookup k
  | _ => .none

/-- Whether a parsed-JSON value is an object (a Python dict); calling
`.get(...)` on a non-dict raises `AttributeError`, which the call sites
that can receive a non-dict model explicitly (see
`handle_calendar_webhook`). -/
def isObj : Json → Bool
  | .obj _ => true
  | _ => false

/-- Python `d.get(k)` (default `None`) for a dict receiver: `null` when the
key is absent. -/
def pyGet (j : Json) (k : String) : Json :=
  (j.index k).getD .null

/-- Python `d.get(k, default)` for a dict receiver. -/
def pyGetD (j : Json) (k : String) (d : Json) : Json :=
  (j.index k).getD d

end Json

/-- Python `str(...)` on the scalar JSON values that occur in the embedded
code paths (container rendering is never exercised by those paths and is
elided as `""`). -/
def pyStr : Json → String
  | .null => "None"
  | .bool true => "True"
  | .bool false => "False"
  | .num n => toString n
  | .str s => s
  | .arr _ => ""
  | .obj _ => ""

/-- Python `s.strip()` on a character list: whitespace dropped from both
ends. -/
def trimChars (cs : List Char) : List Char :=
  ((cs.dropWhile Char.isWhitespace).reverse.dropWhile Char.isWhitespace).reverse

/-- Python `s.strip()` for ASCII whitespace. -/
def pyStrip (s : String) : String := String.mk (trimChars s.data)

/-- Python `s.lower()` for ASCII strings. -/
def pyLower (s : String) : String := String.mk (s.data.map Char.toLower)

/-- Python `s.replace(pat, rep)` over character lists — leftmost,
non-overlapping occurrences, for a non-empty pattern; the fuel argument
(always instantiated to more than the input length) makes the recursion
structural. -/
def pyReplaceAux (pat rep : List Char) : Nat → List Char → List Char
  | _, [] => []
  | 0, cs => cs
  | fuel + 1, c :: cs =>
      if (c :: cs).take pat.length = pat then
        rep ++ pyReplaceAux pat rep fuel ((c :: cs).drop pat.length)
      else
        c :: pyReplaceAux pat rep fuel cs

/-- Python `s.replace(pat, rep)` for a non-empty pattern. -/
def pyReplace (s pat rep : String) : String :=
  String.mk (pyReplaceAux pat.data rep.data (s.data.length + 1) s.data)

/-- Python `s.startswith(pat)`. -/
def pyStartsWith (s pat : String) : Bool :=
  s.data.take pat.data.length = pat.data

/-- Python `s.endswith(pat)`. -/
def pyEndsWith (s pat : String) : Bool :=
  s.data.drop (s.data.length - pat.data.length) = pat.data && pat.data.length ≤ s.data.length

/-- Characters allowed inside the digit part of Python's `int(str)`:
ASCII digits and the separating underscore. -/
def intCharOk (c : Char) : Bool := c.isDigit || c = '_'

/-- Underscore placement rule of Python's `int(str)`: every underscore must
sit between two digits (no leading/trailing underscore, no `__`). -/
def underscoresOk : List Char → Bool
  | [] => false
  | [c] => c.isDigit
  | c :: c' :: rest =>
      c.isDigit &&
      (if c' = '_' then underscoresOk rest else underscoresOk (c' :: rest))

/-- Numeric value of a digit string once underscores are dropped. -/
def digitsVal (cs : List Char) : Nat :=
  (cs.filter (· ≠ '_')).foldl (fun acc c => acc * 10 + (c.toNat - '0'.toNat)) 0

/-- Python `int(s)` for an ASCII string `s`: optional surrounding whitespace,
an optional sign, then decimal digits with Python's underscore rule.
`none` models the `ValueError` raised on anything else. -/
def pyIntOfString (s : String) : Option Int :=
  let cs := trimChars s.data
  let (sign, body) : Int × List Char :=
    match cs with
    | '-' :: rest => (-1, rest)
    | '+' :: rest => (1, rest)
    | _ => (1, cs)
  if underscoresOk body && body.all intCharOk then
    some (sign * (digitsVal body : Int))
  else
    none

/-- Python `int(x)` applied to a parsed-JSON value: strings are parsed
decimally, integers pass through, booleans coerce to 0/1; `none` models the
`TypeError`/`ValueError` raised on `None`, lists and objects. -/
def pyInt : Json → Option Int
  | .str s => pyIntOfString s
  | .num n => some n
  | .bool true => some 1
  | .bool false => some 0
  | _ => none

/-- One pass of Python `str.title()` over ASCII characters: an alphabetic
character is uppercased when the previous character is not alphabetic and
lowercased otherwise. -/
def pyTitleAux : Bool → List Char → List Char
  | _, [] => []
  | prevAlpha, c :: cs =>
      let c' := if c.isAlpha then (if prevAlpha then c.toLower else c.toUpper) else c
      c' :: pyTitleAux c.isAlpha cs

/-- Python `s.title()` for ASCII strings. -/
def pyTitle (s : String) : String :=
  String.mk (pyTitleAux false s.data)

/-! ## GitHub webhook ingestion — `src/integrations/github/webhooks.py`
and the `GitHubWebhookEvent` model from `src/models/github.py`. -/

/-- The values of the `GitHubEventType` enum in `src/models/github.py`;
`GitHubEventType(event_type)` succeeds exactly when `event_type` is one of
these and raises `ValueError` otherwise. -/
def gitHubEventTypeValues : List String :=
  ["push", "pull_request", "issues", "issue_comment", "pull_request_review",
   "pull_request_review_comment", "release", "create", "delete", "fork",
   "star", "watch"]

/-- Whether `GitHubEventType(event_type)` succeeds. -/
def validGitHubEventType (event_type : String) : Bool :=
  gitHubEventTypeValues.contains event_type

/-- `extract_title` from `src/integrations/github/webhooks.py`; the raw
value taken from the payload (default `""`) is returned unchanged. -/
def extract_title (event_type : String) (payload : Json) : Json :=
  if event_type = "pull_request" then
    (payload.pyGetD "pull_request" (.obj [])).pyGetD "title" (.str "")
  else if event_type = "issues" then
    (payload.pyGetD "issue" (.obj [])).pyGetD "title" (.str "")
  else .str ""

/-- `extract_body` from `src/integrations/github/webhooks.py`. -/
def extract_body (event_type : String) (payload : Json) : Json :=
  if event_type = "pull_request" then
    (payload.pyGetD "pull_request" (.obj [])).pyGetD "body" (.str "")
  else if event_type = "issues" then
    (payload.pyGetD "issue" (.obj [])).pyGetD "body" (.str "")
  else .str ""

/-- Running segment accumulator for `lastSlashComponent`. -/
def lastSlashAux (cur : List Char) : List Char → List Char
  | [] => cur.reverse
  | c :: cs => if c = '/' then lastSlashAux [] cs else lastSlashAux (c :: cur) cs

/-- Last component of `s.split("/")`, as in `payload.get("ref", "").split("/")[-1]`
(Python's split of `""` yields `[""]`, so the last component of `""` is `""`). -/
def lastSlashComponent (s : String) : String :=
  String.mk (lastSlashAux [] s.data)

/-- `extract_branch` from `src/integrations/github/webhooks.py`; the `ref`
value is a string in every GitHub push payload, so the string case is the
one embedded. -/
def extract_branch (event_type : String) (payload : Json) : Json :=
  if event_type = "push" then
    match payload.pyGetD "ref" (.str "") with
    | .str s => .str (lastSlashComponent s)
    | v => v
  else if event_type = "pull_request" then
    ((payload.pyGetD "pull_request" (.obj [])).pyGetD "head" (.obj [])).pyGetD "ref" (.str "")
  else .str ""

/-- `extract_commit_sha` from `src/integrations/github/webhooks.py`. -/
def extract_commit_sha (event_type : String) (payload : Json) : Json :=
  if event_type = "push" then
    payload.pyGetD "after" (.str "")
  else if event_type = "pull_request" then
    ((payload.pyGetD "pull_request" (.obj [])).pyGetD "head" (.obj [])).pyGetD "sha" (.str "")
  else .str ""

/-- `extract_pr_number` from `src/integrations/github/webhooks.py`
(`None` when the event is not a pull request). -/
def extract_pr_number (event_type : String) (payload : Json) : Json :=
  if event_type = "pull_request" then
    (payload.pyGetD "pull_request" (.obj [])).pyGet "number"
  else .null

/-- `extract_issue_number` from `src/integrations/github/webhooks.py`. -/
def extract_issue_number (event_type : String) (payload : Json) : Json :=
  if event_type = "issues" then
    (payload.pyGetD "issue" (.obj [])).pyGet "number"
  else .null

/-- One row of the `github_webhook_events` table
(`GitHubWebhookEvent` in `src/models/github.py`); `delivery_id` carries a
uniqueness constraint. Timestamps are modelled as natural numbers. -/
structure GitHubWebhookEvent where
  github_event_id : String
  delivery_id : String
  repository_name : String
  repository_full_name : String
  event_type : String
  action : Json
  sender_login : String
  sender_id : Int
  sender_avatar : Json
  raw_payload : Json
  title : Json
  body : Json
  branch : Json
  commit_sha : Json
  pull_request_number : Json
  issue_number : Json
  processed : Bool
  processed_at : Option Nat
  discord_message_id : Option String
  discord_channel_id : Option String
  error_message : Option String
  retry_count : Nat
  created_at : Nat

/-- `GitHubWebhookEvent.mark_processed` from `src/models/github.py`. -/
def GitHubWebhookEvent.mark_processed (e : GitHubWebhookEvent) (now : Nat)
    (discord_message_id : Option String := none)
    (discord_channel_id : Option String := none) : GitHubWebhookEvent :=
  { e with
    processed := true
    processed_at := some now
    discord_message_id :=
      match discord_message_id with
      | some v => some v
      | none => e.discord_message_id
    discord_channel_id :=
      match discord_channel_id with
      | some v => some v
      | none => e.discord_channel_id }

/-- `GitHubWebhookEvent.mark_error` from `src/models/github.py`. -/
def GitHubWebhookEvent.mark_error (e : GitHubWebhookEvent) (msg : String) :
    GitHubWebhookEvent :=
  { e with error_message := some msg, retry_count := e.retry_count + 1 }

/-- The `github_webhook_events` table. -/
abbrev GitHubDb := List GitHubWebhookEvent

/-- The `GitHubWebhookEvent(...)` row construction inside
`handle_github_webhook_event` (`src/integrations/github/webhooks.py`). -/
def builtGitHubEvent (event_type delivery_id : String) (payload : Json)
    (now : Nat) : GitHubWebhookEvent :=
  let repository := payload.pyGetD "repository" (.obj [])
  let sender := payload.pyGetD "sender" (.obj [])
  { github_event_id := pyStr (payload.pyGetD "id" (.str ""))
    delivery_id := delivery_id
    repository_name := pyStr (repository.pyGetD "name" (.str ""))
    repository_full_name := pyStr (repository.pyGetD "full_name" (.str ""))
    event_type := event_type
    action := payload.pyGet "action"
    sender_login := pyStr (sender.pyGetD "login" (.str ""))
    sender_id := (pyInt (sender.pyGetD "id" (.num 0))).getD 0
    sender_avatar := sender.pyGet "avatar_url"
    raw_payload := payload
    title := extract_title event_type payload
    body := extract_body event_type payload
    branch := extract_branch event_type payload
    commit_sha := extract_commit_sha event_type payload
    pull_request_number := extract_pr_number event_type payload
    issue_number := extract_issue_number event_type payload
    processed := false
    processed_at := none
    discord_message_id := none
    discord_channel_id := none
    error_message := none
    retry_count := 0
    created_at := now }

/-- `handle_github_webhook_event` from `src/integrations/github/webhooks.py`:
builds a `GitHubWebhookEvent` row (`builtGitHubEvent`) and commits it.
`GitHubEventType(event_type)` raises `ValueError` on an unknown event type;
committing a row whose `delivery_id` is already present violates the unique
constraint and raises `IntegrityError`. Both exceptions are modelled as
`Except.error`. -/
def handle_github_webhook_event (event_type delivery_id : String)
    (payload : Json) (db : GitHubDb) (now : Nat) : Except String GitHubDb :=
  if validGitHubEventType event_type then
    let event := builtGitHubEvent event_type delivery_id payload now
    if db.any (fun r => r.delivery_id = delivery_id) then
      .error "IntegrityError: duplicate delivery_id"
    else
      .ok (db ++ [event])
  else
    .error "ValueError: not a valid GitHubEventType"

/-! ## Webhook receive pipeline around `handle_github_webhook_event`. -/

/-- One provider delivery to the GitHub webhook endpoint. -/
structure Delivery where
  event_type : String
  delivery_id : String
  payload : Json

/-- HTTP-level outcome of one delivery. -/
inductive ReceiveStatus where
  | accepted
  | serverError
deriving DecidableEq, Repr

/-- Persisted table plus the trace of delivery ids handed off to the Event
Processor (the side-effect channel). -/
structure IngestState where
  db : GitHubDb
  effects : List String

/-- Modelled from the spec: the webhook HTTP surface (`src/webhook/app.py`
and the `WebhookHandler` of `src/webhook/handlers.py`, imported by
`src/webhook_server.py`) is absent from `src/`. Per §4.2 step 2, a delivery
whose `delivery_id` is empty or already recorded is answered with success
and neither persisted nor reprocessed; otherwise the event is persisted via
`handle_github_webhook_event` (source-embedded above) and handed off once;
a persistence failure is answered 5xx-equivalent (§4.2 failure semantics). -/
def receive (st : IngestState) (dv : Delivery) (now : Nat) :
    ReceiveStatus × IngestState :=
  if dv.delivery_id = "" || st.db.any (fun r => r.delivery_id = dv.delivery_id) then
    (.accepted, st)
  else
    match handle_github_webhook_event dv.event_type dv.delivery_id dv.payload st.db now with
    | .ok db' => (.accepted, { db := db', effects := st.effects ++ [dv.delivery_id] })
    | .error _ => (.serverError, st)

/-- Run a sequence of deliveries through `receive`. -/
def processAll (seq : List Delivery) (st : IngestState) (now : Nat) : IngestState :=
  seq.foldl (fun s dv => (receive s dv now).2) st

/-- Modelled from the spec: the Event Processor's idempotence guard
(§4.3, `process(webhookEvent)`) lives in the absent
`src/webhook/handlers.py`; a processing attempt on an already-processed
event returns immediately, otherwise a successful attempt calls
`mark_processed` and a failed one calls `mark_error`
(both source-embedded above). -/
def driveEvent (e : GitHubWebhookEvent) (succeeds : Bool) (now : Nat)
    (msg : String) : GitHubWebhookEvent :=
  if e.processed then e
  else if succeeds then e.mark_processed now else e.mark_error msg

/-! ## Google Calendar webhooks — `src/integrations/calendar/webhooks.py`. -/

/-- One row of the calendar webhook-event table
(`CalendarWebhookEvent` in `src/models/calendar.py`), as populated by
`store_webhook_event`. -/
structure CalendarWebhookEvent where
  webhook_id : Json
  channel_id : Json
  resource_id : Json
  calendar_id : Json
  calendar_summary : Json
  event_type : Json
  event_id : Json
  event_time : Nat
  raw_payload : Json

/-- The calendar webhook-event store, with a flag modelling an unavailable
store: when `commitFails` is set, `db.commit()` raises. -/
structure CalendarDb where
  events : List CalendarWebhookEvent
  commitFails : Bool

/-- One inbound HTTP callback. `body` is the parse result of the raw bytes
(`none` models a body `json.loads` rejects); the signature header is carried
for reference — `handle_calendar_webhook` never reads it. -/
structure CalendarRequest where
  body : Option Json
  signature : Option String

/-- HTTP response of `handle_calendar_webhook`. -/
inductive CalendarResponse where
  | success
  | badRequest
  | internalError
deriving DecidableEq, Repr

/-- Result of one callback: the HTTP response, the resulting store, and
which processing branch ran. -/
structure CalendarOutcome where
  response : CalendarResponse
  db : CalendarDb
  processedSync : Bool
  processedEvent : Bool

/-- `store_webhook_event` from `src/integrations/calendar/webhooks.py`:
builds the row and commits it; any exception (here: the store being
unavailable) is caught inside the function, logged, and rolled back — the
second component reports whether that happened. -/
def store_webhook_event (webhook_id channel_id resource_id event_type : Json)
    (raw_payload : Json) (now : Nat) (db : CalendarDb) : CalendarDb × Bool :=
  let calendar_id := raw_payload.pyGetD "calendarId" (.str "")
  let calendar_summary := raw_payload.pyGetD "calendarSummary" (.str "Unknown Calendar")
  let webhook_event : CalendarWebhookEvent :=
    { webhook_id := webhook_id
      channel_id := channel_id
      resource_id := resource_id
      calendar_id := calendar_id
      calendar_summary := calendar_summary
      event_type := event_type
      event_id := raw_payload.pyGet "eventId"
      event_time := now
      raw_payload := raw_payload }
  if db.commitFails then
    (db, true)
  else
    ({ db with events := db.events ++ [webhook_event] }, false)

/-- `handle_calendar_webhook` from `src/integrations/calendar/webhooks.py`.
A body that fails `json.loads` raises `json.JSONDecodeError`, answered 400.
A body that parses to a non-object (e.g. `[1]` or `42`) raises
`AttributeError` at the first `webhook_data.get('id')`, which falls to the
handler's outer `except Exception` and is answered 500 with nothing
persisted and no processing. On an object body the processing helpers
(`process_sync_webhook`, `process_event_webhook`) catch every exception
internally and never write to the webhook-event table, so after storage
the handler always reaches the success response. -/
def handle_calendar_webhook (request : CalendarRequest) (db : CalendarDb)
    (now : Nat) : CalendarOutcome :=
  match request.body with
  | none => { response := .badRequest, db := db, processedSync := false, processedEvent := false }
  | some webhook_data =>
      if webhook_data.isObj then
        let webhook_id := webhook_data.pyGet "id"
        let channel_id := webhook_data.pyGet "channelId"
        let resource_id := webhook_data.pyGet "resourceId"
        let event_type := webhook_data.pyGetD "type" (.str "sync")
        let (db', _storeFailed) :=
          store_webhook_event webhook_id channel_id resource_id event_type webhook_data now db
        if event_type.eqStr "sync" then
          { response := .success, db := db', processedSync := true, processedEvent := false }
        else if event_type.eqStr "create" || event_type.eqStr "update" || event_type.eqStr "delete" then
          { response := .success, db := db', processedSync := false, processedEvent := true }
        else
          { response := .success, db := db', processedSync := false, processedEvent := false }
      else
        { response := .internalError, db := db, processedSync := false, processedEvent := false }

/-! ## GitHub subscribe/unsubscribe — `src/integrations/github/operations.py`
over the `GitHubRepository` model of `src/models/github.py`. -/

/-- One row of the `github_repositories` table; `full_name` carries a
uniqueness constraint. Columns the subscribe/unsubscribe operations never
touch are omitted. -/
structure GitHubRepository where
  full_name : String
  notification_channel_id : Option String
  is_active : Bool
deriving DecidableEq, Repr

/-- `subscribe_channel` from `src/integrations/github/operations.py`:
`scalar_one` raises `NoResultFound` (caught, re-raised as `ValueError`)
when no row matches and `MultipleResultsFound` (uncaught) on several;
on the unique match it overwrites `notification_channel_id` with
`str(channel_id)`, sets `is_active`, and commits. -/
def subscribe_channel (repo : String) (channel_id : Int)
    (db : List GitHubRepository) : Except String (List GitHubRepository) :=
  match db.filter (fun r => r.full_name = repo) with
  | [] => .error "ValueError: repository not registered"
  | [_] => .ok (db.map (fun r =>
      if r.full_name = repo then
        { r with notification_channel_id := some (toString channel_id), is_active := true }
      else r))
  | _ => .error "MultipleResultsFound"

/-- `unsubscribe_channel` from `src/integrations/github/operations.py`:
clears `notification_channel_id` only when it currently equals
`str(channel_id)`; otherwise only a warning is logged and nothing is
committed. -/
def unsubscribe_channel (repo : String) (channel_id : Int)
    (db : List GitHubRepository) : Except String (List GitHubRepository) :=
  match db.filter (fun r => r.full_name = repo) with
  | [] => .error "ValueError: repository not registered"
  | [repository] =>
      if repository.notification_channel_id = some (toString channel_id) then
        .ok (db.map (fun r =>
          if r.full_name = repo then { r with notification_channel_id := none } else r))
      else
        .ok db
  | _ => .error "MultipleResultsFound"

/-! ## Notion task creation — `NotionCommands.create_task` in
`src/commands/notion.py` over the `NotionTask` model. -/

/-- The `TaskPriority` enum values touched by `create_task`. -/
inductive TaskPriority where
  | low
  | medium
  | high
  | urgent
deriving DecidableEq, Repr

/-- One row of the local `NotionTask` table, restricted to the columns
`create_task` writes and its duplicate check reads. Timestamps are modelled
as integers (seconds). -/
structure NotionTask where
  id : Nat
  title : String
  description : String
  priority : TaskPriority
  discord_user_id : String
  created_at : Int
deriving DecidableEq, Repr

/-- Python `s.isdigit()` for ASCII strings. -/
def pyIsDigit (s : String) : Bool :=
  !s.data.isEmpty && s.data.all Char.isDigit

/-- The mention-stripping step of `create_task`: `<@!…>` / `<@…>` wrappers
are removed via the chained `str.replace` calls, applied only when the
input starts with `<@` and ends with `>`. -/
def stripMention (s : String) : String :=
  if pyStartsWith s "<@" && pyEndsWith s ">" then
    pyReplace (pyReplace (pyReplace s "<@!" "") "<@" "") ">" ""
  else s

/-- The priority-parsing chain of `create_task`. -/
def parsePriority (priority : String) : Option TaskPriority :=
  let p := pyLower priority
  if p = "low" || p = "l" then some .low
  else if p = "medium" || p = "med" || p = "m" then some .medium
  else if p = "high" || p = "h" then some .high
  else if p = "urgent" || p = "u" then some .urgent
  else none

/-- Outcome shown to the invoking user by `create_task`. -/
inductive CreateTaskResult where
  | invalidInput (msg : String)
  | duplicate (existingId : Nat)
  | internalError
  | created (newId : Nat)
deriving DecidableEq, Repr

/-- `NotionCommands.create_task` from `src/commands/notion.py`:
input validation, the 60-second duplicate check
(`created_at > now - 60` on same stored title and owner, via
`scalar_one_or_none`, whose multiple-rows exception falls to the generic
handler), then creation. The Notion API client is an external collaborator
assumed to succeed; `nextId` is the id the store assigns to the new row. -/
def create_task (now : Int) (task_name description discord_user_id priority : String)
    (db : List NotionTask) (nextId : Nat) : CreateTaskResult × List NotionTask :=
  if (pyStrip task_name).length = 0 then
    (.invalidInput "Task name cannot be empty", db)
  else if task_name.length > 500 then
    (.invalidInput "Task name is too long", db)
  else if (pyStrip description).length = 0 then
    (.invalidInput "Description cannot be empty", db)
  else
    let target_discord_id := stripMention (pyStrip discord_user_id)
    if !pyIsDigit target_discord_id || target_discord_id.length < 17 ||
        target_discord_id.length > 20 then
      (.invalidInput "Invalid Discord user ID", db)
    else
      match parsePriority priority with
      | none => (.invalidInput "Invalid priority", db)
      | some task_priority =>
          let recent_cutoff := now - 60
          match db.filter (fun t =>
              t.title = pyStrip task_name && t.discord_user_id = target_discord_id &&
              t.created_at > recent_cutoff) with
          | [] =>
              let task : NotionTask :=
                { id := nextId
                  title := pyStrip task_name
                  description := pyStrip description
                  priority := task_priority
                  discord_user_id := target_discord_id
                  created_at := now }
              (.created nextId, db ++ [task])
          | [existing_task] => (.duplicate existing_task.id, db)
          | _ => (.internalError, db)

/-! ## Change-notification handler — `GoogleyEventHandlers.on_task_update`
in `src/bot/events.py`. -/

/-- The bot-side state `on_task_update` can observe: the user ids
`fetch_user` resolves and the cog's `_listening` flag (which the handler
never assigns). -/
structure BotState where
  users : List Int
  listening : Bool
deriving DecidableEq, Repr

/-- A Discord embed as assembled by the handler (name/value field pairs;
`add_field` renders values through `str`). -/
structure Embed where
  title : String
  description : String
  fields : List (String × String)
deriving DecidableEq, Repr

/-- One `user.send(embed=...)` delivery call. -/
structure DmSend where
  recipient : Int
  embed : Embed
deriving DecidableEq, Repr

/-- The observable output of one handler invocation. -/
structure HandlerOutput where
  sends : List DmSend
  errorLogs : Nat
  warnLogs : Nat
  infoLogs : Nat
deriving DecidableEq, Repr

/-- `GoogleyEventHandlers.on_task_update` from `src/bot/events.py`.
The payload argument is the `json.loads` result of the raw notification
string (`none` models invalid JSON). Every failure — parse error, missing
`discord_id`, non-numeric `discord_id`, non-string `status` hitting
`.title()` — is caught by the handler's single `except`, which logs one
error and sends nothing; an unresolvable user logs a warning. The handler
never assigns `self._listening`, so the state passes through unchanged. -/
def on_task_update (st : BotState) (payload : Option Json) :
    BotState × HandlerOutput :=
  match payload with
  | none => (st, { sends := [], errorLogs := 1, warnLogs := 0, infoLogs := 0 })
  | some data =>
      match data.index "discord_id" with
      | none => (st, { sends := [], errorLogs := 1, warnLogs := 0, infoLogs := 0 })
      | some v =>
          match pyInt v with
          | none => (st, { sends := [], errorLogs := 1, warnLogs := 0, infoLogs := 0 })
          | some discord_id =>
              let message := data.pyGetD "message" (.obj [])
              let user : Option Unit :=
                if st.users.contains discord_id then some () else none
              match message.pyGetD "status" (.str "unknown") with
              | .str status =>
                  let embed : Embed :=
                    { title := "🔔 Task Updated"
                      description := "There was an update to one of your tasks."
                      fields :=
                        [("Task", pyStr (message.pyGetD "title" (.str "N/A"))),
                         ("Description", pyStr (message.pyGetD "description" (.str "N/A"))),
                         ("Status", pyReplace (pyTitle status) "_" " "),
                         ("Due Date", pyStr (message.pyGetD "due_date" (.str "N/A")))] }
                  match user with
                  | some _ =>
                      (st, { sends := [{ recipient := discord_id, embed := embed }],
                             errorLogs := 0, warnLogs := 0, infoLogs := 1 })
                  | none =>
                      (st, { sends := [], errorLogs := 0, warnLogs := 1, infoLogs := 0 })
              | _ => (st, { sends := [], errorLogs := 1, warnLogs := 0, infoLogs := 0 })

/-! ## Theorems. -/

/-- A concrete `GitHubWebhookEvent` row used to instantiate theorems. -/
def sampleEvent : GitHubWebhookEvent :=
  { github_event_id := "1"
    delivery_id := "d-0"
    repository_name := "repo"
    repository_full_name := "org/repo"
    event_type := "push"
    action := .null
    sender_login := "octocat"
    sender_id := 1
    sender_avatar := .null
    raw_payload := .obj []
    title := .str ""
    body := .str ""
    branch := .str "main"
    commit_sha := .str ""
    pull_request_number := .null
    issue_number := .null
    processed := false
    processed_at := none
    discord_message_id := none
    discord_channel_id := none
    error_message := none
    retry_count := 0
    created_at := 0 }

/-- **C2.** The claim states that a callback whose HMAC signature does not
match is rejected with a 401-equivalent, with no persisted row and no
processing. At a concrete callback carrying a wrong signature over a valid
JSON body, `handle_calendar_webhook` instead answers success, persists one
row, and runs sync processing — the claim as stated is false. -/
theorem C2_counterexample :
    (handle_calendar_webhook
      { body := some (.obj [("id", .str "w1"), ("type", .str "sync")]),
        signature := some "wrong-secret" }
      { events := [], commitFails := false } 0).response = CalendarResponse.success ∧
    (handle_calendar_webhook
      { body := some (.obj [("id", .str "w1"), ("type", .str "sync")]),
        signature := some "wrong-secret" }
      { events := [], commitFails := false } 0).db.events.length = 1 ∧
    (handle_calendar_webhook
      { body := some (.obj [("id", .str "w1"), ("type", .str "sync")]),
        signature := some "wrong-secret" }
      { events := [], commitFails := false } 0).processedSync = true :=
  ⟨rfl, rfl, rfl⟩

/-- **C2 (amended).** `handle_calendar_webhook` performs no signature
verification at all: its outcome is independent of the signature header. A
callback whose body parses to a JSON object is answered success and (when
the store is available) persisted, whatever the signature; a body that
fails JSON parsing is rejected (400-equivalent) with no persisted row; a
body that parses to a non-object raises `AttributeError` at the first
`webhook_data.get('id')` and is answered 500 by the outer handler, with no
persisted row and no processing. -/
theorem C2_amended (body : Option Json) (sig sig' : Option String)
    (db : CalendarDb) (now : Nat) :
    handle_calendar_webhook { body := body, signature := sig } db now =
      handle_calendar_webhook { body := body, signature := sig' } db now
  ∧ (body = none →
      (handle_calendar_webhook { body := body, signature := sig } db now).response =
        CalendarResponse.badRequest ∧
      (handle_calendar_webhook { body := body, signature := sig } db now).db = db)
  ∧ (∀ fields, body = some (Json.obj fields) →
      (handle_calendar_webhook { body := body, signature := sig } db now).response =
        CalendarResponse.success ∧
      (db.commitFails = false →
        (handle_calendar_webhook { body := body, signature := sig } db now).db.events.length =
          db.events.length + 1))
  ∧ (∀ j, body = some j → j.isObj = false →
      (handle_calendar_webhook { body := body, signature := sig } db now).response =
        CalendarResponse.internalError ∧
      (handle_calendar_webhook { body := body, signature := sig } db now).db = db ∧
      (handle_calendar_webhook { body := body, signature := sig } db now).processedSync = false ∧
      (handle_calendar_webhook { body := body, signature := sig } db now).processedEvent = false) := by
  refine ⟨rfl, ?_, ?_, ?_⟩
  · rintro rfl
    exact ⟨rfl, rfl⟩
  · rintro fields rfl
    constructor
    · simp only [handle_calendar_webhook, Json.isObj, if_true]
      split
      · rfl
      · split <;> rfl
    · intro hc
      simp only [handle_calendar_webhook, Json.isObj, if_true, store_webhook_event, hc]
      split
      · simp
      · split <;> simp
  · rintro j rfl hno
    cases j <;> simp_all [Json.isObj, handle_calendar_webhook]

/-- Witness for `C2_amended` at concrete callbacks and stores: an object
body, an invalid body, and a valid-JSON non-object body. -/
theorem C2_amended_witness :
    (handle_calendar_webhook ⟨some (Json.obj [("id", Json.str "w1")]), some "s1"⟩
      ⟨[], false⟩ 0).response = CalendarResponse.success ∧
    (handle_calendar_webhook ⟨some (Json.obj [("id", Json.str "w1")]), some "s1"⟩
      ⟨[], false⟩ 0).db.events.length = 1 ∧
    (handle_calendar_webhook ⟨(none : Option Json), some "s1"⟩ ⟨[], false⟩ 0).response =
      CalendarResponse.badRequest ∧
    (handle_calendar_webhook ⟨some (Json.arr [Json.num 1]), some "s1"⟩ ⟨[], false⟩ 0).response =
      CalendarResponse.internalError ∧
    (handle_calendar_webhook ⟨some (Json.arr [Json.num 1]), some "s1"⟩
      ⟨[], false⟩ 0).db.events.length = 0 := by
  refine ⟨((C2_amended _ (some "s1") (some "s2") _ 0).2.2.1 _ rfl).1, ?_,
    ((C2_amended none (some "s1") (some "s2") _ 0).2.1 rfl).1,
    ((C2_amended (some (Json.arr [Json.num 1])) (some "s1") (some "s2")
      ⟨[], false⟩ 0).2.2.2 _ rfl rfl).1, ?_⟩
  · have h := ((C2_amended (some (Json.obj [("id", Json.str "w1")])) (some "s1") (some "s2")
      ⟨[], false⟩ 0).2.2.1 _ rfl).2 rfl
    simpa using h
  · have h := ((C2_amended (some (Json.arr [Json.num 1])) (some "s1") (some "s2")
      ⟨[], false⟩ 0).2.2.2 _ rfl rfl).2.1
    simp [h]

/-- **C5.** The claim states that a persistence failure makes the HTTP
handler answer a 5xx-equivalent. At a concrete callback against an
unavailable store, `store_webhook_event` swallows the failure and
`handle_calendar_webhook` still answers success with nothing persisted —
the claim as stated is false. -/
theorem C5_counterexample :
    (handle_calendar_webhook { body := some (.obj [("id", .str "w1")]), signature := none }
      { events := [], commitFails := true } 0).response = CalendarResponse.success ∧
    (handle_calendar_webhook { body := some (.obj [("id", .str "w1")]), signature := none }
      { events := [], commitFails := true } 0).response ≠ CalendarResponse.internalError ∧
    (handle_calendar_webhook { body := some (.obj [("id", .str "w1")]), signature := none }
      { events := [], commitFails := true } 0).db.events = [] :=
  ⟨rfl, by decide, rfl⟩

/-- **C5 (amended).** A persistence failure is caught inside
`store_webhook_event` (logged and rolled back), so `handle_calendar_webhook`
still answers success with no row persisted; the provider therefore sees a
2xx and does not redeliver. A 500 is produced only by exceptions that reach
the handler's outer catch-all, which persistence failures never do. -/
theorem C5_amended (fields : List (String × Json)) (sig : Option String)
    (db : CalendarDb) (now : Nat) (h : db.commitFails = true) :
    (handle_calendar_webhook { body := some (Json.obj fields), signature := sig } db now).response =
      CalendarResponse.success ∧
    (handle_calendar_webhook { body := some (Json.obj fields), signature := sig } db now).db = db := by
  constructor
  · simp only [handle_calendar_webhook, Json.isObj, if_true]
    split
    · rfl
    · split <;> rfl
  · simp only [handle_calendar_webhook, Json.isObj, if_true, store_webhook_event, h]
    split
    · rfl
    · split <;> rfl

/-- Witness for `C5_amended` at a concrete callback and failing store. -/
theorem C5_amended_witness :
    ({ events := [], commitFails := true } : CalendarDb).commitFails = true ∧
    (handle_calendar_webhook { body := some (.obj [("id", .str "w1")]), signature := none }
      { events := [], commitFails := true } 0).response = CalendarResponse.success ∧
    (handle_calendar_webhook { body := some (.obj [("id", .str "w1")]), signature := none }
      { events := [], commitFails := true } 0).db = { events := [], commitFails := true } :=
  ⟨rfl, (C5_amended [("id", .str "w1")] none { events := [], commitFails := true } 0 rfl).1,
    (C5_amended [("id", .str "w1")] none { events := [], commitFails := true } 0 rfl).2⟩

/-- **C3.** The claim states that a successful processing attempt clears
`error_message`. On a concrete row carrying an error from a prior failed
attempt, `mark_processed` sets `processed`/`processed_at` but leaves
`error_message` set — the clearing part of the claim is false. -/
theorem C3_counterexample :
    ((sampleEvent.mark_error "boom").mark_processed 5).processed = true ∧
    ((sampleEvent.mark_error "boom").mark_processed 5).error_message = some "boom" ∧
    ((sampleEvent.mark_error "boom").mark_processed 5).error_message ≠ none :=
  ⟨rfl, rfl, by decide⟩

/-- **C3 (amended).** On success `mark_processed` sets `processed = true`
and `processed_at = now` but retains `error_message` (it is not cleared);
on failure `mark_error` sets `error_message`, increments `retry_count` by
exactly 1 and leaves `processed` unchanged (so still false); and driving an
already-processed event is a no-op, so `processed` never transitions back
to false. -/
theorem C3_amended (e : GitHubWebhookEvent) (now : Nat) (msg : String) :
    ((e.mark_processed now).processed = true ∧
     (e.mark_processed now).processed_at = some now ∧
     (e.mark_processed now).error_message = e.error_message)
  ∧ ((e.mark_error msg).error_message = some msg ∧
     (e.mark_error msg).retry_count = e.retry_count + 1 ∧
     (e.mark_error msg).processed = e.processed)
  ∧ (e.processed = true → ∀ succeeds, driveEvent e succeeds now msg = e)
  ∧ (e.processed = false →
      driveEvent e true now msg = e.mark_processed now ∧
      driveEvent e false now msg = e.mark_error msg) := by
  refine ⟨⟨rfl, rfl, rfl⟩, ⟨rfl, rfl, rfl⟩, ?_, ?_⟩
  · intro hp succeeds
    simp [driveEvent, hp]
  · intro hp
    simp [driveEvent, hp]

/-- Witness for `C3_amended` at concrete rows in both processed states. -/
theorem C3_amended_witness :
    (sampleEvent.mark_processed 0).processed = true ∧
    (∀ succeeds, driveEvent (sampleEvent.mark_processed 0) succeeds 5 "x" =
      sampleEvent.mark_processed 0) ∧
    sampleEvent.processed = false ∧
    driveEvent sampleEvent true 5 "x" = sampleEvent.mark_processed 5 ∧
    driveEvent sampleEvent false 5 "x" = sampleEvent.mark_error "x" :=
  ⟨rfl, (C3_amended (sampleEvent.mark_processed 0) 5 "x").2.2.1 rfl, rfl,
    ((C3_amended sampleEvent 5 "x").2.2.2 rfl).1,
    ((C3_amended sampleEvent 5 "x").2.2.2 rfl).2⟩

/-- **C7.** The claim states that ingestion of an unknown `event_type` does
not fail. At the concrete unknown type `"deployment"`,
`handle_github_webhook_event` raises (`GitHubEventType(event_type)` is a
`ValueError`) before anything is stored — the "handled without raising"
part of the claim is false, even though the projection for that type is
empty. -/
theorem C7_counterexample :
    handle_github_webhook_event "deployment" "d-1" (.obj []) [] 0 =
      .error "ValueError: not a valid GitHubEventType" ∧
    extract_title "deployment" (.obj []) = .str "" :=
  ⟨rfl, rfl⟩

/-- **C7 (amended).** The field projections are pure mappings keyed by
`event_type` and are empty (`""` for strings, `None` for item numbers) on
every unknown event type; but `handle_github_webhook_event` converts
`event_type` through the `GitHubEventType` enum before storing, which
raises `ValueError` on an unknown type, so ingestion of an unknown event
type fails rather than persisting an event with empty projections. -/
theorem C7_amended (event_type delivery_id : String) (payload : Json)
    (db : GitHubDb) (now : Nat) (h : validGitHubEventType event_type = false) :
    extract_title event_type payload = .str "" ∧
    extract_body event_type payload = .str "" ∧
    extract_branch event_type payload = .str "" ∧
    extract_commit_sha event_type payload = .str "" ∧
    extract_pr_number event_type payload = .null ∧
    extract_issue_number event_type payload = .null ∧
    handle_github_webhook_event event_type delivery_id payload db now =
      .error "ValueError: not a valid GitHubEventType" := by
  have h1 : event_type ≠ "pull_request" := by
    rintro rfl
    simp [validGitHubEventType, gitHubEventTypeValues] at h
  have h2 : event_type ≠ "issues" := by
    rintro rfl
    simp [validGitHubEventType, gitHubEventTypeValues] at h
  have h3 : event_type ≠ "push" := by
    rintro rfl
    simp [validGitHubEventType, gitHubEventTypeValues] at h
  refine ⟨?_, ?_, ?_, ?_, ?_, ?_, ?_⟩
  · simp [extract_title, h1, h2]
  · simp [extract_body, h1, h2]
  · simp [extract_branch, h1, h3]
  · simp [extract_commit_sha, h1, h3]
  · simp [extract_pr_number, h1]
  · simp [extract_issue_number, h2]
  · simp [handle_github_webhook_event, h]

/-- Witness for `C7_amended` at the concrete unknown type `"deployment"`. -/
theorem C7_amended_witness :
    validGitHubEventType "deployment" = false ∧
    extract_pr_number "deployment" (.obj []) = .null ∧
    handle_github_webhook_event "deployment" "d-1" (.obj []) [] 0 =
      .error "ValueError: not a valid GitHubEventType" :=
  ⟨rfl, (C7_amended "deployment" "d-1" (.obj []) [] 0 rfl).2.2.2.2.1,
    (C7_amended "deployment" "d-1" (.obj []) [] 0 rfl).2.2.2.2.2.2⟩

/-- **C4.** For every malformed change-notification payload — invalid JSON
or a JSON object with no `discord_id` key — `on_task_update` logs exactly
one error, performs zero delivery calls, and leaves the bot state (in
particular the `_listening` flag) untouched, so any subsequent payload is
handled exactly as it would have been before the bad one. -/
theorem C4_malformed_payload_isolated (st : BotState) (payload : Option Json)
    (h : payload = none ∨
      ∃ fields, payload = some (Json.obj fields) ∧ fields.lookup "discord_id" = none) :
    (on_task_update st payload).2.sends = [] ∧
    (on_task_update st payload).2.errorLogs = 1 ∧
    (on_task_update st payload).1 = st ∧
    (on_task_update st payload).1.listening = st.listening ∧
    (∀ p2, on_task_update (on_task_update st payload).1 p2 = on_task_update st p2) := by
  rcases h with rfl | ⟨fields, rfl, hlk⟩
  · exact ⟨rfl, rfl, rfl, rfl, fun _ => rfl⟩
  · simp [on_task_update, Json.index, hlk]

/-- Witness for `C4_malformed_payload_isolated`: invalid JSON and a payload
missing `discord_id`, against a concrete bot state. -/
theorem C4_malformed_payload_isolated_witness :
    (on_task_update ⟨[7], true⟩ none).2.sends = [] ∧
    (on_task_update ⟨[7], true⟩ none).2.errorLogs = 1 ∧
    (on_task_update ⟨[7], true⟩ none).1.listening = true ∧
    ([("message", Json.str "x")].lookup "discord_id" = none ∧
      (on_task_update ⟨[7], true⟩ (some (Json.obj [("message", Json.str "x")]))).2.sends = []) := by
  have h1 := C4_malformed_payload_isolated ⟨[7], true⟩ none (Or.inl rfl)
  have h2 := C4_malformed_payload_isolated ⟨[7], true⟩
    (some (Json.obj [("message", Json.str "x")]))
    (Or.inr ⟨[("message", Json.str "x")], rfl, rfl⟩)
  exact ⟨h1.1, h1.2.1, h1.2.2.2.1, rfl, h2.1⟩

/-- **C10.** For every valid-JSON payload whose `discord_id` value is a
non-empty string that `int(...)` cannot parse as a decimal integer,
`on_task_update` performs no delivery, logs one error, and leaves the state
unchanged: the code demands a numeric `discord_id`, strictly stronger than
the wire format's non-empty requirement. -/
theorem C10_nonnumeric_discord_id (st : BotState) (fields : List (String × Json))
    (s : String) (h0 : s ≠ "") (hlk : fields.lookup "discord_id" = some (Json.str s))
    (hs : pyIntOfString s = none) :
    (on_task_update st (some (Json.obj fields))).2.sends = [] ∧
    (on_task_update st (some (Json.obj fields))).2.errorLogs = 1 ∧
    (on_task_update st (some (Json.obj fields))).1 = st := by
  simp [on_task_update, Json.index, hlk, pyInt, hs]

/-- Witness for `C10_nonnumeric_discord_id` at the concrete value `"abc"`. -/
theorem C10_nonnumeric_discord_id_witness :
    ("abc" : String) ≠ "" ∧
    [("discord_id", Json.str "abc")].lookup "discord_id" = some (Json.str "abc") ∧
    pyIntOfString "abc" = none ∧
    (on_task_update ⟨[7], true⟩ (some (Json.obj [("discord_id", Json.str "abc")]))).2.sends = [] ∧
    (on_task_update ⟨[7], true⟩ (some (Json.obj [("discord_id", Json.str "abc")]))).2.errorLogs = 1 := by
  have h := C10_nonnumeric_discord_id ⟨[7], true⟩ [("discord_id", Json.str "abc")] "abc"
    (by decide) rfl (by decide)
  exact ⟨by decide, rfl, by decide, h.1, h.2.1⟩
/-- The scenario-A notification payload from the spec's testable properties. -/
def scenarioAPayload : Json :=
  .obj [("discord_id", .str "123456789012345678"),
        ("message", .obj [("title", .str "Fix bug"), ("status", .str "in_progress")])]

/-- **C9.** On the scenario-A payload, whenever the bot can resolve user
`123456789012345678`, `on_task_update` makes exactly one delivery call, to
that recipient, and the embed carries the task title `"Fix bug"` and the
formatted status `"In Progress"`. -/
theorem C9_scenarioA (users : List Int) (listening : Bool)
    (h : users.contains (123456789012345678 : Int) = true) :
    ∃ e : Embed,
      (on_task_update ⟨users, listening⟩ (some scenarioAPayload)).2.sends =
        [{ recipient := 123456789012345678, embed := e }] ∧
      ("Task", "Fix bug") ∈ e.fields ∧
      ("Status", "In Progress") ∈ e.fields := by
  have hn : pyInt (Json.str "123456789012345678") = some 123456789012345678 := by decide
  have hmem : (123456789012345678 : Int) ∈ users := by simpa using h
  simp only [on_task_update, scenarioAPayload, Json.index, Json.pyGetD, List.lookup]
  simp [hn, hmem]
  refine ⟨_, rfl, ?_, ?_⟩ <;> decide

/-- Witness for `C9_scenarioA` with a bot that knows the recipient. -/
theorem C9_scenarioA_witness :
    ([(123456789012345678 : Int)].contains 123456789012345678 = true) ∧
    ∃ e : Embed,
      (on_task_update ⟨[123456789012345678], true⟩ (some scenarioAPayload)).2.sends =
        [{ recipient := 123456789012345678, embed := e }] ∧
      ("Task", "Fix bug") ∈ e.fields ∧
      ("Status", "In Progress") ∈ e.fields :=
  ⟨by decide, C9_scenarioA [123456789012345678] true (by decide)⟩
/-- Updating exactly the rows satisfying `q` commutes with filtering by `q`
when the update preserves `q`. -/
theorem filter_map_update {α : Type} (q : α → Prop) [DecidablePred q] (g : α → α)
    (hg : ∀ x, q (g x) ↔ q x) (l : List α) :
    (l.map (fun x => if q x then g x else x)).filter (fun x => decide (q x)) =
      (l.filter (fun x => decide (q x))).map g := by
  induction l with
  | nil => rfl
  | cons a l ih =>
    by_cases hq : q a
    · simp [hq, (hg a).2 hq, ih]
    · simp [hq, fun h => hq ((hg a).1 h), ih]

/-- **C8.** For a registered repository (a unique `full_name` match), the
subscribe operation overwrites whatever notification target was stored with
the caller's channel, and the unsubscribe operation clears the target only
when the caller's channel equals the stored one, leaving the table
completely unchanged otherwise — so each source carries at most one target
at a time. -/
theorem C8_subscription_target (db : List GitHubRepository) (repo : String) (ch : Int)
    (r : GitHubRepository) (hr : db.filter (fun x => x.full_name = repo) = [r]) :
    (∃ db', subscribe_channel repo ch db = .ok db' ∧
      db'.filter (fun x => x.full_name = repo) =
        [{ r with notification_channel_id := some (toString ch), is_active := true }]) ∧
    (r.notification_channel_id = some (toString ch) →
      ∃ db', unsubscribe_channel repo ch db = .ok db' ∧
        db'.filter (fun x => x.full_name = repo) =
          [{ r with notification_channel_id := none }]) ∧
    (r.notification_channel_id ≠ some (toString ch) →
      unsubscribe_channel repo ch db = .ok db) := by
  have hs : subscribe_channel repo ch db = .ok (db.map (fun x =>
      if x.full_name = repo then
        { x with notification_channel_id := some (toString ch), is_active := true }
      else x)) := by
    simp only [subscribe_channel, hr]
  have hu : unsubscribe_channel repo ch db =
      (if r.notification_channel_id = some (toString ch) then
        .ok (db.map (fun x =>
          if x.full_name = repo then { x with notification_channel_id := none } else x))
      else .ok db) := by
    simp only [unsubscribe_channel, hr]
  refine ⟨⟨_, hs, ?_⟩, ?_, ?_⟩
  · rw [filter_map_update (fun x => x.full_name = repo)
      (fun x => { x with notification_channel_id := some (toString ch), is_active := true })
      (fun x => Iff.rfl) db, hr]
    rfl
  · intro hc
    refine ⟨db.map (fun x =>
      if x.full_name = repo then { x with notification_channel_id := none } else x), ?_, ?_⟩
    · rw [hu, if_pos hc]
    · rw [filter_map_update (fun x => x.full_name = repo)
        (fun x => { x with notification_channel_id := none })
        (fun x => Iff.rfl) db, hr]
      rfl
  · intro hc
    rw [hu, if_neg hc]

/-- Witness for `C8_subscription_target` on two concrete one-row tables:
one where the stored target differs from the caller and one where it
matches. -/
theorem C8_subscription_target_witness :
    (∃ db', subscribe_channel "org/repo" 42
        [⟨"org/repo", some "7", false⟩] = .ok db' ∧
      db'.filter (fun x => x.full_name = "org/repo") = [⟨"org/repo", some "42", true⟩]) ∧
    (∃ db', unsubscribe_channel "org/repo" 42
        [⟨"org/repo", some "42", true⟩] = .ok db' ∧
      db'.filter (fun x => x.full_name = "org/repo") = [⟨"org/repo", none, true⟩]) ∧
    unsubscribe_channel "org/repo" 42 [⟨"org/repo", some "7", false⟩] =
      .ok [⟨"org/repo", some "7", false⟩] := by
  have h1 := C8_subscription_target [⟨"org/repo", some "7", false⟩] "org/repo" 42
    ⟨"org/repo", some "7", false⟩ (by decide)
  have h2 := C8_subscription_target [⟨"org/repo", some "42", true⟩] "org/repo" 42
    ⟨"org/repo", some "42", true⟩ (by decide)
  exact ⟨h1.1, h2.2.1 (by decide), h1.2.2 (by decide)⟩
/-- **C6.** Two create-task requests with the same natural key (trimmed
title + owner): a second request arriving strictly within the 60-second
trailing window is answered "duplicate detected" with the first record's
id and stores nothing, so one record exists; a second request arriving
more than 60 seconds after the first stores a second record. -/
theorem C6_duplicate_window (t0 t1 : Int)
    (task_name description discord_user_id priority : String) (pr : TaskPriority)
    (h1 : ¬(pyStrip task_name).length = 0)
    (h2 : ¬task_name.length > 500)
    (h3 : ¬(pyStrip description).length = 0)
    (h4 : pyIsDigit (stripMention (pyStrip discord_user_id)) = true)
    (h5 : ¬(stripMention (pyStrip discord_user_id)).length < 17)
    (h6 : ¬(stripMention (pyStrip discord_user_id)).length > 20)
    (h7 : parsePriority priority = some pr) :
    ∃ db1 : List NotionTask,
      create_task t0 task_name description discord_user_id priority [] 1 = (.created 1, db1) ∧
      db1.length = 1 ∧
      (t1 - t0 < 60 →
        create_task t1 task_name description discord_user_id priority db1 2 =
          (.duplicate 1, db1)) ∧
      (t1 - t0 > 60 →
        ∃ db2 : List NotionTask,
          create_task t1 task_name description discord_user_id priority db1 2 =
            (.created 2, db2) ∧ db2.length = 2) := by
  have hguard : ∀ (t : Int) (db : List NotionTask) (nid : Nat),
      create_task t task_name description discord_user_id priority db nid =
        (match db.filter (fun x => x.title = pyStrip task_name &&
            x.discord_user_id = stripMention (pyStrip discord_user_id) &&
            x.created_at > t - 60) with
          | [] => (.created nid, db ++
              [{ id := nid, title := pyStrip task_name, description := pyStrip description,
                 priority := pr, discord_user_id := stripMention (pyStrip discord_user_id),
                 created_at := t }])
          | [existing_task] => (.duplicate existing_task.id, db)
          | _ => (.internalError, db)) := by
    intro t db nid
    simp only [create_task, if_neg h1, if_neg h2, if_neg h3, h4, h7]
    simp [h5, h6]
  refine ⟨[⟨1, pyStrip task_name, pyStrip description, pr,
      stripMention (pyStrip discord_user_id), t0⟩], ?_, rfl, ?_, ?_⟩
  · rw [hguard]
    simp
  · intro hlt
    rw [hguard]
    have hcond : (t0 > t1 - 60) := by omega
    simp [hcond]
  · intro hgt
    rw [hguard]
    have hcond : ¬(t0 > t1 - 60) := by omega
    simp [hcond]

/-- Witness for `C6_duplicate_window`: the same request re-issued 30
seconds later is answered as a duplicate of record 1; re-issued 61 seconds
later it creates a second record. -/
theorem C6_duplicate_window_witness :
    (∃ db1, create_task 100 "Fix bug" "desc" "123456789012345678" "Medium" [] 1 =
        (.created 1, db1) ∧
      create_task 130 "Fix bug" "desc" "123456789012345678" "Medium" db1 2 =
        (.duplicate 1, db1)) ∧
    (∃ db1, create_task 100 "Fix bug" "desc" "123456789012345678" "Medium" [] 1 =
        (.created 1, db1) ∧
      ∃ db2, create_task 161 "Fix bug" "desc" "123456789012345678" "Medium" db1 2 =
        (.created 2, db2) ∧ db2.length = 2) := by
  obtain ⟨db1, hc, _, hdup, _⟩ := C6_duplicate_window 100 130 "Fix bug" "desc"
    "123456789012345678" "Medium" .medium (by decide) (by decide) (by decide)
    (by decide) (by decide) (by decide) (by decide)
  obtain ⟨db1', hc', _, _, hcre⟩ := C6_duplicate_window 100 161 "Fix bug" "desc"
    "123456789012345678" "Medium" .medium (by decide) (by decide) (by decide)
    (by decide) (by decide) (by decide) (by decide)
  exact ⟨⟨db1, hc, hdup (by decide)⟩, ⟨db1', hc', hcre (by decide)⟩⟩
/-- Invariant of the ingest pipeline: recorded delivery ids are unique and
non-empty, and the hand-off trace contains each id at most once, only for
recorded ids. -/
def IngestInv (st : IngestState) : Prop :=
  (st.db.map (fun r => r.delivery_id)).Nodup ∧
  "" ∉ st.db.map (fun r => r.delivery_id) ∧
  st.effects.Nodup ∧
  ∀ d ∈ st.effects, d ∈ st.db.map (fun r => r.delivery_id)

/-- A delivery with an empty or already-recorded id is acknowledged and
changes nothing. -/
theorem receive_dup (st : IngestState) (dv : Delivery) (now : Nat)
    (h : dv.delivery_id = "" ∨ dv.delivery_id ∈ st.db.map (fun r => r.delivery_id)) :
    receive st dv now = (.accepted, st) := by
  rcases h with h | h
  · simp [receive, h]
  · have ha : st.db.any (fun r => r.delivery_id = dv.delivery_id) = true := by
      rw [List.any_eq_true]
      rcases List.mem_map.mp h with ⟨r, hr, he⟩
      exact ⟨r, hr, by simp [he]⟩
    simp [receive, ha]

/-- A fresh delivery with a known event type is persisted (one appended row
carrying its id) and handed off exactly once. -/
theorem receive_new_valid (st : IngestState) (dv : Delivery) (now : Nat)
    (h1 : dv.delivery_id ≠ "")
    (h2 : dv.delivery_id ∉ st.db.map (fun r => r.delivery_id))
    (hv : validGitHubEventType dv.event_type = true) :
    ∃ ev : GitHubWebhookEvent, ev.delivery_id = dv.delivery_id ∧
      receive st dv now = (.accepted, ⟨st.db ++ [ev], st.effects ++ [dv.delivery_id]⟩) := by
  have ha : st.db.any (fun r => r.delivery_id = dv.delivery_id) = false := by
    rw [List.any_eq_false]
    intro r hr
    simp only [decide_eq_true_eq]
    intro he
    exact h2 (List.mem_map.mpr ⟨r, hr, he⟩)
  refine ⟨builtGitHubEvent dv.event_type dv.delivery_id dv.payload now, rfl, ?_⟩
  simp [receive, handle_github_webhook_event, h1, ha, hv]

/-- A fresh delivery with an unknown event type is answered 5xx and changes
nothing. -/
theorem receive_new_invalid (st : IngestState) (dv : Delivery) (now : Nat)
    (h1 : dv.delivery_id ≠ "")
    (h2 : dv.delivery_id ∉ st.db.map (fun r => r.delivery_id))
    (hv : validGitHubEventType dv.event_type = false) :
    receive st dv now = (.serverError, st) := by
  have ha : st.db.any (fun r => r.delivery_id = dv.delivery_id) = false := by
    rw [List.any_eq_false]
    intro r hr
    simp only [decide_eq_true_eq]
    intro he
    exact h2 (List.mem_map.mpr ⟨r, hr, he⟩)
  simp [receive, handle_github_webhook_event, h1, ha, hv]

/-- One `receive` step either leaves the state unchanged or appends one row
with the delivery's (fresh, non-empty) id and one hand-off of that id. -/
theorem receive_state_cases (st : IngestState) (dv : Delivery) (now : Nat) :
    (receive st dv now).2 = st ∨
    ∃ ev : GitHubWebhookEvent, ev.delivery_id = dv.delivery_id ∧ dv.delivery_id ≠ "" ∧
      dv.delivery_id ∉ st.db.map (fun r => r.delivery_id) ∧
      (receive st dv now).2 = ⟨st.db ++ [ev], st.effects ++ [dv.delivery_id]⟩ := by
  by_cases h0 : dv.delivery_id = "" ∨ dv.delivery_id ∈ st.db.map (fun r => r.delivery_id)
  · left
    rw [receive_dup st dv now h0]
  · push_neg at h0
    by_cases hv : validGitHubEventType dv.event_type = true
    · obtain ⟨ev, he, hr⟩ := receive_new_valid st dv now h0.1 h0.2 hv
      exact Or.inr ⟨ev, he, h0.1, h0.2, by rw [hr]⟩
    · left
      rw [receive_new_invalid st dv now h0.1 h0.2 (by simpa using hv)]

/-- Recorded ids persist across a `receive` step. -/
theorem receive_ids_mono (st : IngestState) (dv : Delivery) (now : Nat) (d : String)
    (h : d ∈ st.db.map (fun r => r.delivery_id)) :
    d ∈ (receive st dv now).2.db.map (fun r => r.delivery_id) := by
  rcases receive_state_cases st dv now with h2 | ⟨ev, _, _, _, h2⟩ <;> rw [h2]
  · exact h
  · simp only [List.map_append, List.mem_append]
    exact Or.inl h

/-- One `receive` step preserves the ingest invariant. -/
theorem receive_inv (st : IngestState) (dv : Delivery) (now : Nat)
    (hinv : IngestInv st) : IngestInv (receive st dv now).2 := by
  obtain ⟨hnd, hne, hend, hsub⟩ := hinv
  rcases receive_state_cases st dv now with h2 | ⟨ev, hev, hne', hnotin, h2⟩ <;> rw [h2]
  · exact ⟨hnd, hne, hend, hsub⟩
  · have hd : ev.delivery_id = dv.delivery_id := hev
    have hnotineff : dv.delivery_id ∉ st.effects := fun hmem => hnotin (hsub _ hmem)
    refine ⟨?_, ?_, ?_, ?_⟩
    · simp only [List.map_append, List.map_cons, List.map_nil, hd]
      rw [List.nodup_append]
      refine ⟨hnd, List.nodup_singleton _, ?_⟩
      intro a ha hb
      rw [List.mem_singleton] at hb
      exact hnotin (hb ▸ ha)
    · simp only [List.map_append, List.map_cons, List.map_nil, hd, List.mem_append]
      rintro (h | h)
      · exact hne h
      · simp at h
        exact hne' h.symm
    · rw [List.nodup_append]
      refine ⟨hend, List.nodup_singleton _, ?_⟩
      intro a ha hb
      rw [List.mem_singleton] at hb
      exact hnotineff (hb ▸ ha)
    · intro e he
      simp only [List.map_append, List.map_cons, List.map_nil, hd, List.mem_append]
      rcases List.mem_append.mp he with h | h
      · exact Or.inl (hsub _ h)
      · simp at h
        exact Or.inr (by simp [h])
/-- `processAll` preserves the ingest invariant. -/
theorem processAll_inv (seq : List Delivery) (st : IngestState) (now : Nat)
    (h : IngestInv st) : IngestInv (processAll seq st now) := by
  induction seq generalizing st with
  | nil => exact h
  | cons dv seq ih => exact ih _ (receive_inv st dv now h)

/-- Recorded ids persist across a whole delivery sequence. -/
theorem processAll_ids_mono (seq : List Delivery) (st : IngestState) (now : Nat)
    (d : String) (h : d ∈ st.db.map (fun r => r.delivery_id)) :
    d ∈ (processAll seq st now).db.map (fun r => r.delivery_id) := by
  induction seq generalizing st with
  | nil => exact h
  | cons dv seq ih => exact ih _ (receive_ids_mono st dv now d h)

/-- If some delivery in the sequence carries id `d` (non-empty, known event
type), then `d` is recorded afterwards. -/
theorem processAll_records (seq : List Delivery) (st : IngestState) (now : Nat)
    (d : String) (hd : d ≠ "")
    (h : ∃ dv ∈ seq, dv.delivery_id = d ∧ validGitHubEventType dv.event_type = true) :
    d ∈ (processAll seq st now).db.map (fun r => r.delivery_id) := by
  induction seq generalizing st with
  | nil =>
    obtain ⟨dv, hmem, _⟩ := h
    exact absurd hmem (List.not_mem_nil dv)
  | cons a seq ih =>
    obtain ⟨dv, hmem, hid, hv⟩ := h
    rcases List.mem_cons.mp hmem with rfl | hmem'
    · by_cases hin : dv.delivery_id ∈ st.db.map (fun r => r.delivery_id)
      · exact hid ▸ processAll_ids_mono seq _ now _ (receive_ids_mono st dv now _ hin)
      · obtain ⟨ev, he, hr⟩ := receive_new_valid st dv now (hid ▸ hd) hin hv
        have hrec : d ∈ (receive st dv now).2.db.map (fun r => r.delivery_id) := by
          rw [hr]
          simp [he, hid]
        exact processAll_ids_mono seq _ now d hrec
    · exact ih _ ⟨dv, hmem', hid, hv⟩

/-- Over a table whose delivery ids are unique, the rows carrying a given
id number at most one, and exactly one when the id is recorded. -/
theorem filter_delivery_id_length (l : GitHubDb) (d : String)
    (h : (l.map (fun r => r.delivery_id)).Nodup) :
    (l.filter (fun r => r.delivery_id = d)).length ≤ 1 ∧
    (d ∈ l.map (fun r => r.delivery_id) →
      (l.filter (fun r => r.delivery_id = d)).length = 1) := by
  induction l with
  | nil => simp
  | cons a l ih =>
    rw [List.map_cons, List.nodup_cons] at h
    obtain ⟨ha, hl⟩ := h
    obtain ⟨ih1, ih2⟩ := ih hl
    by_cases hd : a.delivery_id = d
    · have hnil : l.filter (fun r => r.delivery_id = d) = [] := by
        rw [List.filter_eq_nil_iff]
        intro r hr
        simp only [decide_eq_true_eq]
        intro he
        exact ha (by rw [hd, ← he]; exact List.mem_map.mpr ⟨r, hr, rfl⟩)
      simp [List.filter_cons, hd, hnil]
    · simp only [List.filter_cons, hd, decide_False, if_false, List.map_cons, List.mem_cons]
      refine ⟨ih1, ?_⟩
      rintro (h | h)
      · exact absurd h.symm hd
      · exact ih2 h
/-- **C1.** Running any sequence of deliveries through the ingest pipeline
from an empty store: at most one row ever carries a given delivery id, and
exactly one does when some delivery in the sequence carries that id with a
non-empty value and a known event type; the processing hand-off fires at
most once per id; and any single delivery whose id is empty or already
recorded is answered with success, with the store, and hence the side
effects, unchanged. -/
theorem C1_ingest_dedup (seq : List Delivery) (d : String) (now : Nat) :
    ((processAll seq ⟨[], []⟩ now).db.filter (fun r => r.delivery_id = d)).length ≤ 1 ∧
    (processAll seq ⟨[], []⟩ now).effects.count d ≤ 1 ∧
    ((d ≠ "" ∧ ∃ dv ∈ seq, dv.delivery_id = d ∧ validGitHubEventType dv.event_type = true) →
      ((processAll seq ⟨[], []⟩ now).db.filter (fun r => r.delivery_id = d)).length = 1) ∧
    (∀ (st : IngestState) (dv : Delivery),
      (dv.delivery_id = "" ∨ dv.delivery_id ∈ st.db.map (fun r => r.delivery_id)) →
      receive st dv now = (.accepted, st)) := by
  have hinv : IngestInv (processAll seq ⟨[], []⟩ now) :=
    processAll_inv seq ⟨[], []⟩ now ⟨List.nodup_nil, List.not_mem_nil "", List.nodup_nil,
      fun d hd => absurd hd (List.not_mem_nil d)⟩
  refine ⟨(filter_delivery_id_length _ d hinv.1).1, ?_, ?_, ?_⟩
  · exact List.nodup_iff_count_le_one.mp hinv.2.2.1 d
  · rintro ⟨hd, hex⟩
    exact (filter_delivery_id_length _ d hinv.1).2
      (processAll_records seq ⟨[], []⟩ now d hd hex)
  · intro st dv h
    exact receive_dup st dv now h

/-- Witness for `C1_ingest_dedup`: the same `push` delivery `d1` delivered
twice yields one stored row, and a delivery whose id is already recorded is
acknowledged without change. -/
theorem C1_ingest_dedup_witness :
    ((processAll [⟨"push", "d1", .obj []⟩, ⟨"push", "d1", .obj []⟩]
        ⟨[], []⟩ 0).db.filter (fun r => r.delivery_id = "d1")).length = 1 ∧
    (processAll [⟨"push", "d1", .obj []⟩, ⟨"push", "d1", .obj []⟩]
        ⟨[], []⟩ 0).effects.count "d1" ≤ 1 ∧
    receive ⟨[sampleEvent], []⟩ ⟨"push", "d-0", .obj []⟩ 0 =
      (.accepted, ⟨[sampleEvent], []⟩) := by
  have h := C1_ingest_dedup [⟨"push", "d1", .obj []⟩, ⟨"push", "d1", .obj []⟩] "d1" 0
  exact ⟨h.2.2.1 ⟨by decide, ⟨"push", "d1", .obj []⟩, by simp, rfl, by decide⟩,
    h.2.1, h.2.2.2 ⟨[sampleEvent], []⟩ ⟨"push", "d-0", .obj []⟩ (Or.inr (by decide))⟩
